import Mathlib

/-!
Shallow embedding of the TableAgentGPT session state machine
(`manage_multi_agent_states.py`, `pydantic_models.py`, `build_state_graph.py`).

External collaborators (console input, the text-generation service, the
relational engine, description-file reads) are modelled as explicit oracle
arguments to the handlers; everything else follows the Python source.
String primitives are re-implemented over `List Char` with the semantics
of the corresponding Python `str` methods, so that all definitions
evaluate by kernel reduction.
-/

set_option maxRecDepth 8192

namespace TableAgentGPT

/-- Python `str.lower` (ASCII range, the only range the commands use). -/
def pyLower (s : String) : String :=
  String.mk (s.toList.map fun c =>
    if 'A' ≤ c ∧ c ≤ 'Z' then Char.ofNat (c.toNat + 32) else c)

/-- Python `str.startswith`. -/
def pyStartswith (s pre : String) : Bool :=
  pre.toList.isPrefixOf s.toList

/-- Python `str.strip()`: remove leading and trailing whitespace. -/
def pyStrip (s : String) : String :=
  String.mk
    (((s.toList.dropWhile Char.isWhitespace).reverse.dropWhile Char.isWhitespace).reverse)

/-- Python `str.split()` with no separator: split on whitespace runs,
dropping empty tokens. -/
def pySplit (s : String) : List String :=
  ((s.toList.splitOnP Char.isWhitespace).map String.mk).filter (fun t => t ≠ "")

/-- Worker for `pySplitOnStr`: fuel-driven scan emitting the chunks
between non-overlapping occurrences of `sep`. -/
def pySplitOnAux (sep : List Char) : Nat → List Char → List Char → List (List Char)
  | 0, _, acc => [acc.reverse]
  | _ + 1, [], acc => [acc.reverse]
  | fuel + 1, c :: rest, acc =>
      if sep ≠ [] ∧ sep.isPrefixOf (c :: rest) then
        acc.reverse :: pySplitOnAux sep fuel ((c :: rest).drop sep.length) []
      else
        pySplitOnAux sep fuel rest (c :: acc)

/-- Python `str.split(sep)` for a non-empty separator string. -/
def pySplitOnStr (s sep : String) : List String :=
  (pySplitOnAux sep.toList (s.toList.length + 1) s.toList []).map String.mk

/-- Worker for `pyReplace`: fuel-driven left-to-right replacement of
non-overlapping occurrences. -/
def pyReplaceAux (old new : List Char) : Nat → List Char → List Char
  | 0, cs => cs
  | _ + 1, [] => []
  | fuel + 1, c :: rest =>
      if old ≠ [] ∧ old.isPrefixOf (c :: rest) then
        new ++ pyReplaceAux old new fuel ((c :: rest).drop old.length)
      else
        c :: pyReplaceAux old new fuel rest

/-- Python `str.replace(old, new)` for a non-empty `old`. -/
def pyReplace (s old new : String) : String :=
  String.mk (pyReplaceAux old.toList new.toList (s.toList.length + 1) s.toList)

/-- Message roles: `SystemMessage`, `HumanMessage`, `AIMessage` from
langchain, as used by the handlers. -/
inductive Role where
  | system
  | human
  | ai
deriving DecidableEq, Repr

/-- A role-tagged conversation message. -/
structure Message where
  role : Role
  content : String
deriving DecidableEq, Repr

/-- Rows returned by the relational engine (`fetchall()`); the core never
inspects their content, so cells are kept as opaque strings. -/
abbrev Rows := List (List String)

/-- `SqlEvent` from `pydantic_models.py`: one query-synthesis attempt. -/
structure SqlEvent where
  user_question : Option String := none
  sql_text : Option String := none
  sql_result : Option Rows := none
  llm_response : Option String := none
  error : Option String := none
  retry_count : Nat := 0
deriving DecidableEq, Repr

/-- `DataLoadEvent` from `pydantic_models.py`. -/
structure DataLoadEvent where
  file_path : Option String := none
  table_columns_description : Option String := none
deriving DecidableEq, Repr

/-- `ChatState` from `pydantic_models.py`. -/
structure ChatState where
  conversation_history : List Message
  sql_event : SqlEvent := {}
  data_load_event : DataLoadEvent := {}
  table_schemas : String := ""
  next_step : String := "handle_user_input"
deriving DecidableEq, Repr

/-- `ChatState.update_conversation_history`: appends one message. -/
def ChatState.update_conversation_history (s : ChatState) (m : Message) : ChatState :=
  { s with conversation_history := s.conversation_history ++ [m] }

/-- The `try` block of the `/load` branch: Python
`_, file_path, table_columns_description = user_input.split()` succeeds
exactly when the token count is three. -/
def parseLoad (user_input : String) : Option (String × String) :=
  match pySplit user_input with
  | [_, fp, desc] => some (fp, desc)
  | _ => none

/-- The system message of the empty-schema intake branch (two adjacent
Python string literals, hence the double blank). -/
def loadFirstPrompt : String :=
  "Please load your data first using the command /load <file_path>  <table_columns_description>."

/-- `handle_user_input` from `manage_multi_agent_states.py`, with the
console read passed in as `user_input`. -/
def handle_user_input (user_input : String) (state : ChatState) : ChatState :=
  if pyStartswith (pyLower user_input) "/q" then
    { state with next_step := "END" }
  else if pyStartswith (pyLower user_input) "/load" then
    match parseLoad user_input with
    | some (fp, desc) =>
        { state with
          data_load_event := { file_path := some fp, table_columns_description := some desc },
          next_step := "load_data" }
    | none =>
        { state with next_step := "handle_user_input" }
  else if state.table_schemas = "" then
    let s := state.update_conversation_history ⟨Role.system, loadFirstPrompt⟩
    { s with next_step := "handle_user_input" }
  else
    let s := state.update_conversation_history ⟨Role.human, user_input⟩
    { s with
      sql_event := { user_question := some user_input },
      next_step := "build_query" }

/-- `os.path.basename` (posix): the part after the last slash. -/
def pyBasename (p : String) : String :=
  (pySplitOnStr p "/").getLastD ""

/-- Index of the last occurrence of `c` in `cs`, if any. -/
def lastIdxOf (c : Char) (cs : List Char) : Option Nat :=
  match cs.reverse.findIdx? (· = c) with
  | none => none
  | some k => some (cs.length - 1 - k)

/-- `os.path.splitext(...)[0]` applied to a basename: drop the suffix from
the last dot unless every character before that dot is itself a dot
(leading dots are not an extension). -/
def pySplitextStem (b : String) : String :=
  let cs := b.toList
  match lastIdxOf '.' cs with
  | none => b
  | some d => if (cs.take d).all (· = '.') then b else String.mk (cs.take d)

/-- The formatted table block `f"Table: {table_name}\n{meta}\n"` appended
to `table_schemas` by `load_data`. -/
def tableBlock (table_name meta : String) : String :=
  "Table: " ++ table_name ++ "\n" ++ meta ++ "\n"

/-- `load_data` from `manage_multi_agent_states.py`, with the
description-file content passed in as `meta` (the DuckDB materialization
is external to the core). -/
def load_data (meta : String) (state : ChatState) : ChatState :=
  let file_path := state.data_load_event.file_path.getD ""
  let table_name := pySplitextStem (pyBasename file_path)
  let table_info := tableBlock table_name meta
  let s := { state with table_schemas := state.table_schemas ++ table_info }
  let s := s.update_conversation_history
    ⟨Role.system, "Table \x27" ++ table_name ++ "\x27 loaded with metadata:\n" ++ table_info⟩
  { s with next_step := "handle_user_input" }

/-- The clarification marker the query builder looks for. -/
def clarificationMarker : String := "[CLARIFICATION]"

/-- `build_query` from `manage_multi_agent_states.py`, with the
text-generation response passed in as `llm_content`. -/
def build_query (llm_content : String) (state : ChatState) : ChatState :=
  if pyStartswith llm_content clarificationMarker then
    let clarification_text := pyStrip ((pySplitOnStr llm_content clarificationMarker).getD 1 "")
    let clarification_msg :=
      "Your question is ambiguous. Please provide additional details: " ++ clarification_text
    let s := state.update_conversation_history ⟨Role.ai, clarification_msg⟩
    { s with next_step := "handle_user_input" }
  else
    let query_text := pyStrip (pyReplace (pyReplace llm_content "```sql" "") "```" "")
    let s := state.update_conversation_history ⟨Role.ai, query_text⟩
    { s with
      sql_event := { s.sql_event with sql_text := some query_text },
      next_step := "execute_query" }

/-- The give-up message of `execute_query`. The second Python string
fragment lacks the f prefix, so the brace placeholder is literal text. -/
def giveUpMessage : String :=
  "Unfortunately, I was unable to execute your requests after \x7bMAX_RETRY_SQL_GENERATION\x7d attempts."

/-- `execute_query` from `manage_multi_agent_states.py`, with the retry
bound `maxRetry` (the `MAX_RETRY_SQL_GENERATION` constant) and the
relational engine's outcome `dbResult` passed in. -/
def execute_query (maxRetry : Nat) (dbResult : Except String Rows)
    (state : ChatState) : ChatState :=
  match dbResult with
  | Except.ok result =>
      { state with
        sql_event := { state.sql_event with sql_result := some result, error := none },
        next_step := "post_execution" }
  | Except.error e =>
      let ev := { state.sql_event with
        sql_result := none
        error := some e
        retry_count := state.sql_event.retry_count + 1 }
      if ev.retry_count > maxRetry then
        let s := { state with sql_event := ev }.update_conversation_history
          ⟨Role.ai, giveUpMessage⟩
        { s with next_step := "handle_user_input" }
      else
        let s := { state with sql_event := ev }.update_conversation_history
          ⟨Role.ai, "The generated SQL query raised this error:\n" ++ e ++ "\n"⟩
        { s with next_step := "build_query" }

/-- Python `str()` of the optional result rows, as interpolated into the
`post_execution` transparency message. -/
def pyStrRows : Option Rows → String
  | none => "None"
  | some rs =>
      "[" ++ String.intercalate ", "
        (rs.map (fun t => "(" ++ String.intercalate ", " t ++ ")")) ++ "]"

/-- `post_execution` from `manage_multi_agent_states.py`, with the
summarization response passed in as `narration`. -/
def post_execution (narration : String) (state : ChatState) : ChatState :=
  let sql_results : Message :=
    ⟨Role.ai, "SQL results are: " ++ pyStrRows state.sql_event.sql_result⟩
  let s := state.update_conversation_history sql_results
  let s := s.update_conversation_history ⟨Role.ai, narration⟩
  let s := { s with sql_event := { s.sql_event with llm_response := some narration } }
  { s with next_step := "handle_user_input" }

/-- `route_to_next_step` from `manage_multi_agent_states.py`. -/
def route_to_next_step (state : ChatState) : String :=
  state.next_step

/-- One step's worth of external-collaborator responses. -/
structure Env where
  userInput : String
  fileMeta : String
  llmText : String
  dbResult : Except String Rows
  narration : String

/-- One dispatch of the orchestration graph (`build_state_graph.py`): the
conditional edges send `route_to_next_step`'s value to the node of the
same name; `END` (and anything unrecognized) stops the graph. -/
def step (maxRetry : Nat) (env : Env) (state : ChatState) : ChatState :=
  if route_to_next_step state = "handle_user_input" then handle_user_input env.userInput state
  else if route_to_next_step state = "load_data" then load_data env.fileMeta state
  else if route_to_next_step state = "build_query" then build_query env.llmText state
  else if route_to_next_step state = "execute_query" then execute_query maxRetry env.dbResult state
  else if route_to_next_step state = "post_execution" then post_execution env.narration state
  else state

/-- A whole session: fold `step` over the stream of collaborator
responses. -/
def run (maxRetry : Nat) (envs : List Env) (state : ChatState) : ChatState :=
  envs.foldl (fun s e => step maxRetry e s) state

/-- The welcome message seeding the session (`build_state_graph.py`). -/
def welcomeMessage : Message :=
  ⟨Role.system,
    "Welcome to TableAgentGPT! This tool enables you to interact with your tabular data by generating queries on your behalf.\n\nTo get started, please load your data and its metadata using the command:\n/load <file_path> <table_columns_description>\n\nOnce your data is loaded, feel free to ask any questions, and I’ll retrieve insights for you.\nTo exit the system, simply type /q."⟩

/-- The initial `chat_state` of `build_state_graph.py`. -/
def initChatState : ChatState :=
  { conversation_history := [welcomeMessage] }

/-- The closed set of stage names plus the terminal marker. -/
def stageNames : List String :=
  ["handle_user_input", "load_data", "build_query", "execute_query", "post_execution", "END"]

/-- A loaded session state used by witnesses: the welcome message plus one
table block in `table_schemas`. -/
def loadedState : ChatState :=
  { conversation_history := [welcomeMessage],
    table_schemas := tableBlock "sales" "columns: id, amount, date" }

/-- One successful data load, as the loop performs it: the intake handler
stored the two paths in `data_load_event`, then `load_data` ran with the
description file's content. A load is the file path paired with the
description-path and the description-file content. -/
def doLoad (s : ChatState) (l : String × String × String) : ChatState :=
  load_data l.2.2
    { s with data_load_event :=
        { file_path := some l.1, table_columns_description := some l.2.1 } }

/-- A sequence of successful loads in order. -/
def runLoads (loads : List (String × String × String)) (s : ChatState) : ChatState :=
  loads.foldl doLoad s

/-- The concatenation, in load order, of each load's formatted table
block. -/
def blocksConcat : List (String × String × String) → String
  | [] => ""
  | l :: ls => tableBlock (pySplitextStem (pyBasename l.1)) l.2.2 ++ blocksConcat ls

/-- The downstream stages are only ever scheduled with a loaded schema
context. -/
def schemasGuard (s : ChatState) : Prop :=
  s.next_step = "build_query" ∨ s.next_step = "execute_query" ∨
      s.next_step = "post_execution" →
    s.table_schemas ≠ ""

instance (s : ChatState) : Decidable (schemasGuard s) := by
  unfold schemasGuard; infer_instance

/-- An environment with the only fields a given scenario exercises. -/
def demoEnv (u m : String) : Env :=
  { userInput := u, fileMeta := m, llmText := "",
    dbResult := Except.error "", narration := "" }

/-- The collaborator responses of a failing attempt loop: the
text-generation service returns `llm` (plain SQL, no clarification) and
the relational engine always rejects it with `err`. -/
def envFail (llm err : String) : Env :=
  { userInput := "", fileMeta := "", llmText := llm,
    dbResult := Except.error err, narration := "" }

/-- A concrete session state about to enter query-build on a fresh
attempt, used by witnesses. -/
def bqState : ChatState :=
  { conversation_history := [welcomeMessage],
    sql_event := { user_question := some "total sales last month" },
    table_schemas := tableBlock "sales" "columns: id, amount, date",
    next_step := "build_query" }

/-! ## Helper lemmas -/

theorem parseLoad_eq_none_of_length_ne_three (i : String)
    (h : (pySplit i).length ≠ 3) : parseLoad i = none := by
  unfold parseLoad
  rcases hs : pySplit i with _ | ⟨a, _ | ⟨b, _ | ⟨c, _ | ⟨d, tl⟩⟩⟩⟩ <;>
    simp_all [pySplit]

theorem handle_user_input_history_extend (i : String) (s : ChatState) :
    ∃ t, (handle_user_input i s).conversation_history = s.conversation_history ++ t ∧
      t.length ≤ 1 := by
  cases hq : pyStartswith (pyLower i) "/q" with
  | true => exact ⟨[], by simp [handle_user_input, hq]⟩
  | false =>
    cases hl : pyStartswith (pyLower i) "/load" with
    | true =>
      cases hp : parseLoad i with
      | none => exact ⟨[], by simp [handle_user_input, hq, hl, hp]⟩
      | some v =>
        obtain ⟨fp, desc⟩ := v
        exact ⟨[], by simp [handle_user_input, hq, hl, hp]⟩
    | false =>
      by_cases hts : s.table_schemas = ""
      · exact ⟨[⟨Role.system, loadFirstPrompt⟩],
          by simp [handle_user_input, hq, hl, hts, ChatState.update_conversation_history]⟩
      · exact ⟨[⟨Role.human, i⟩],
          by simp [handle_user_input, hq, hl, hts, ChatState.update_conversation_history]⟩

theorem load_data_history_extend (m : String) (s : ChatState) :
    ∃ msg, (load_data m s).conversation_history = s.conversation_history ++ [msg] := by
  refine ⟨⟨Role.system,
    "Table \x27" ++ pySplitextStem (pyBasename (s.data_load_event.file_path.getD ""))
      ++ "\x27 loaded with metadata:\n"
      ++ tableBlock (pySplitextStem (pyBasename (s.data_load_event.file_path.getD ""))) m⟩, ?_⟩
  simp [load_data, ChatState.update_conversation_history]

theorem build_query_history_extend (c : String) (s : ChatState) :
    ∃ msg, (build_query c s).conversation_history = s.conversation_history ++ [msg] := by
  cases h : pyStartswith c clarificationMarker with
  | true =>
    refine ⟨⟨Role.ai, "Your question is ambiguous. Please provide additional details: "
      ++ pyStrip ((pySplitOnStr c clarificationMarker).getD 1 "")⟩, ?_⟩
    simp [build_query, h, ChatState.update_conversation_history]
  | false =>
    refine ⟨⟨Role.ai, pyStrip (pyReplace (pyReplace c "```sql" "") "```" "")⟩, ?_⟩
    simp [build_query, h, ChatState.update_conversation_history]

theorem execute_query_history_extend (N : Nat) (r : Except String Rows) (s : ChatState) :
    ∃ t, (execute_query N r s).conversation_history = s.conversation_history ++ t ∧
      t.length ≤ 1 := by
  match r with
  | Except.ok rows => exact ⟨[], by simp [execute_query]⟩
  | Except.error e =>
    simp only [execute_query, ChatState.update_conversation_history]
    split
    · exact ⟨[⟨Role.ai, giveUpMessage⟩], by simp⟩
    · exact ⟨[⟨Role.ai, "The generated SQL query raised this error:\n" ++ e ++ "\n"⟩], by simp⟩

theorem post_execution_history_extend (n : String) (s : ChatState) :
    ∃ m1 m2, (post_execution n s).conversation_history
      = s.conversation_history ++ [m1, m2] := by
  refine ⟨⟨Role.ai, "SQL results are: " ++ pyStrRows s.sql_event.sql_result⟩,
    ⟨Role.ai, n⟩, ?_⟩
  simp [post_execution, ChatState.update_conversation_history]

theorem step_history_extend (N : Nat) (env : Env) (s : ChatState) :
    ∃ t, (step N env s).conversation_history = s.conversation_history ++ t ∧
      t.length ≤ 2 := by
  unfold step
  split
  · obtain ⟨t, ht, hl⟩ := handle_user_input_history_extend env.userInput s
    exact ⟨t, ht, by omega⟩
  split
  · obtain ⟨m, hm⟩ := load_data_history_extend env.fileMeta s
    exact ⟨[m], hm, by simp⟩
  split
  · obtain ⟨m, hm⟩ := build_query_history_extend env.llmText s
    exact ⟨[m], hm, by simp⟩
  split
  · obtain ⟨t, ht, hl⟩ := execute_query_history_extend N env.dbResult s
    exact ⟨t, ht, by omega⟩
  split
  · obtain ⟨m1, m2, hm⟩ := post_execution_history_extend env.narration s
    exact ⟨[m1, m2], hm, by simp⟩
  · exact ⟨[], by simp⟩

theorem run_history_extend (N : Nat) (envs : List Env) (s : ChatState) :
    ∃ t, (run N envs s).conversation_history = s.conversation_history ++ t := by
  induction envs generalizing s with
  | nil => exact ⟨[], by simp [run]⟩
  | cons e es ih =>
    obtain ⟨t1, ht1, _⟩ := step_history_extend N e s
    obtain ⟨t2, ht2⟩ := ih (step N e s)
    refine ⟨t1 ++ t2, ?_⟩
    show (run N es (step N e s)).conversation_history = _
    rw [ht2, ht1, List.append_assoc]

/-! ## Claim theorems -/

/-- C10: on a successful execution `sql_result` holds the rows and
`error` is cleared; on a failed execution `sql_result` is cleared and
`error` holds the message; hence `sql_result` and `error` are never both
set after `execute_query` returns. -/
theorem execute_result_error_exclusive :
    (∀ (N : Nat) (rows : Rows) (s : ChatState),
      (execute_query N (Except.ok rows) s).sql_event.sql_result = some rows ∧
      (execute_query N (Except.ok rows) s).sql_event.error = none) ∧
    (∀ (N : Nat) (e : String) (s : ChatState),
      (execute_query N (Except.error e) s).sql_event.sql_result = none ∧
      (execute_query N (Except.error e) s).sql_event.error = some e) ∧
    (∀ (N : Nat) (r : Except String Rows) (s : ChatState),
      (execute_query N r s).sql_event.sql_result = none ∨
      (execute_query N r s).sql_event.error = none) := by
  refine ⟨?_, ?_, ?_⟩
  · intro N rows s
    simp [execute_query]
  · intro N e s
    simp only [execute_query, ChatState.update_conversation_history]
    split <;> simp
  · intro N r s
    match r with
    | Except.ok rows => simp [execute_query]
    | Except.error e =>
        simp only [execute_query, ChatState.update_conversation_history]
        split <;> simp

/-- C3: a clarification-marker response appends the clarification as an
assistant message, routes to intake and leaves the attempt (in particular
`sql_text`) untouched; a non-marker response stores the fence-stripped
text in `sql_text`, appends it as an assistant message and routes to
execution. -/
theorem build_query_clarification_routing (c : String) (s : ChatState) :
    (pyStartswith c clarificationMarker = true →
      (build_query c s).next_step = "handle_user_input" ∧
      (build_query c s).conversation_history = s.conversation_history ++
        [⟨Role.ai, "Your question is ambiguous. Please provide additional details: " ++
          pyStrip ((pySplitOnStr c clarificationMarker).getD 1 "")⟩] ∧
      (build_query c s).sql_event = s.sql_event) ∧
    (pyStartswith c clarificationMarker = false →
      (build_query c s).next_step = "execute_query" ∧
      (build_query c s).conversation_history = s.conversation_history ++
        [⟨Role.ai, pyStrip (pyReplace (pyReplace c "```sql" "") "```" "")⟩] ∧
      (build_query c s).sql_event =
        { s.sql_event with
          sql_text := some (pyStrip (pyReplace (pyReplace c "```sql" "") "```" "")) }) := by
  constructor
  · intro h
    simp [build_query, h, ChatState.update_conversation_history]
  · intro h
    simp [build_query, h, ChatState.update_conversation_history]

/-- C3 witness: both branches at concrete inputs. -/
theorem build_query_clarification_routing_witness :
    ((build_query "[CLARIFICATION] Which date range?" initChatState).next_step
        = "handle_user_input" ∧
      (build_query "[CLARIFICATION] Which date range?" initChatState).sql_event
        = initChatState.sql_event) ∧
    ((build_query "```sql\nSELECT 1\n```" initChatState).next_step = "execute_query" ∧
      (build_query "```sql\nSELECT 1\n```" initChatState).sql_event.sql_text
        = some "SELECT 1") := by
  have h1 := (build_query_clarification_routing "[CLARIFICATION] Which date range?"
    initChatState).1 (by decide)
  have h2 := (build_query_clarification_routing "```sql\nSELECT 1\n```"
    initChatState).2 (by decide)
  refine ⟨⟨h1.1, h1.2.2⟩, h2.1, ?_⟩
  rw [h2.2.2]
  decide

/-- C5 counterexample: on the malformed load command `/load sales.csv`
the intake handler leaves the conversation history untouched — no
usage-instruction system message is appended, contrary to the claim. -/
theorem malformed_load_counterexample :
    (handle_user_input "/load sales.csv" initChatState).conversation_history
        = initChatState.conversation_history ∧
    (handle_user_input "/load sales.csv" initChatState).next_step
        = "handle_user_input" := by
  decide

/-- C5 amended: on a load command with a token count other than three the
intake handler only logs; the state is unchanged except that `next_step`
is set back to intake — nothing is appended to the conversation history,
no `SqlAttempt` is created and the input is not consumed as a question. -/
theorem malformed_load_retry_intake (i : String) (s : ChatState)
    (hq : pyStartswith (pyLower i) "/q" = false)
    (hl : pyStartswith (pyLower i) "/load" = true)
    (hn : (pySplit i).length ≠ 3) :
    handle_user_input i s = { s with next_step := "handle_user_input" } := by
  simp [handle_user_input, hq, hl, parseLoad_eq_none_of_length_ne_three i hn]

/-- C5 witness: the amended behaviour at `/load sales.csv`. -/
theorem malformed_load_retry_intake_witness :
    handle_user_input "/load sales.csv" initChatState
      = { initChatState with next_step := "handle_user_input" } :=
  malformed_load_retry_intake "/load sales.csv" initChatState
    (by decide) (by decide) (by decide)

/-- C7: when the retry budget is exhausted the appended give-up message is
the literal text `Unfortunately, I was unable to execute your requests
after \x7bMAX_RETRY_SQL_GENERATION\x7d attempts.` — the placeholder is not
substituted (the second Python string fragment lacks the f prefix), so the
message contains no digit and in particular not the bound's numeric
value. -/
theorem giveup_message_placeholder_unsubstituted :
    (execute_query 0 (Except.error "Parser Error") initChatState).conversation_history
        = initChatState.conversation_history ++ [⟨Role.ai, giveUpMessage⟩] ∧
    (execute_query 0 (Except.error "Parser Error") initChatState).next_step
        = "handle_user_input" ∧
    giveUpMessage.toList.any Char.isDigit = false := by
  decide

/-- C2: accepting a new question installs a fresh `SqlAttempt` with
`user_question` equal to the input and `retry_count = 0`; and
`retry_count` is preserved by every handler except the failure branch of
`execute_query`, which increments it by exactly one (a question-accepting
intake invocation starts a new attempt at zero). -/
theorem fresh_attempt_retry_zero :
    (∀ (i : String) (s : ChatState),
      pyStartswith (pyLower i) "/q" = false →
      pyStartswith (pyLower i) "/load" = false →
      s.table_schemas ≠ "" →
      (handle_user_input i s).sql_event = { user_question := some i } ∧
      (handle_user_input i s).sql_event.retry_count = 0) ∧
    (∀ (i : String) (s : ChatState),
      (handle_user_input i s).sql_event.retry_count = s.sql_event.retry_count ∨
      (handle_user_input i s).sql_event = { user_question := some i }) ∧
    (∀ (m : String) (s : ChatState), (load_data m s).sql_event = s.sql_event) ∧
    (∀ (c : String) (s : ChatState),
      (build_query c s).sql_event.retry_count = s.sql_event.retry_count) ∧
    (∀ (N : Nat) (rows : Rows) (s : ChatState),
      (execute_query N (Except.ok rows) s).sql_event.retry_count
        = s.sql_event.retry_count) ∧
    (∀ (N : Nat) (e : String) (s : ChatState),
      (execute_query N (Except.error e) s).sql_event.retry_count
        = s.sql_event.retry_count + 1) ∧
    (∀ (n : String) (s : ChatState),
      (post_execution n s).sql_event.retry_count = s.sql_event.retry_count) := by
  refine ⟨?_, ?_, ?_, ?_, ?_, ?_, ?_⟩
  · intro i s hq hl hts
    simp [handle_user_input, hq, hl, hts, ChatState.update_conversation_history]
  · intro i s
    cases hq : pyStartswith (pyLower i) "/q" with
    | true => exact Or.inl (by simp [handle_user_input, hq])
    | false =>
      cases hl : pyStartswith (pyLower i) "/load" with
      | true =>
        cases hp : parseLoad i with
        | none => exact Or.inl (by simp [handle_user_input, hq, hl, hp])
        | some v =>
          obtain ⟨fp, desc⟩ := v
          exact Or.inl (by simp [handle_user_input, hq, hl, hp])
      | false =>
        by_cases hts : s.table_schemas = ""
        · exact Or.inl
            (by simp [handle_user_input, hq, hl, hts, ChatState.update_conversation_history])
        · exact Or.inr
            (by simp [handle_user_input, hq, hl, hts, ChatState.update_conversation_history])
  · intro m s
    simp [load_data, ChatState.update_conversation_history]
  · intro c s
    cases h : pyStartswith c clarificationMarker with
    | true => simp [build_query, h, ChatState.update_conversation_history]
    | false => simp [build_query, h, ChatState.update_conversation_history]
  · intro N rows s
    simp [execute_query]
  · intro N e s
    simp only [execute_query, ChatState.update_conversation_history]
    split <;> simp
  · intro n s
    simp [post_execution, ChatState.update_conversation_history]

/-- C2 witness: accepting a concrete question on a loaded session. -/
theorem fresh_attempt_retry_zero_witness :
    (handle_user_input "total sales last month" loadedState).sql_event
        = { user_question := some "total sales last month" } ∧
    (handle_user_input "total sales last month" loadedState).sql_event.retry_count = 0 :=
  fresh_attempt_retry_zero.1 "total sales last month" loadedState
    (by decide) (by decide) (by decide)

/-- C8 counterexample: one `post_execution` invocation appends two
messages (the raw-results message and the narration), not exactly one. -/
theorem post_execution_two_messages_counterexample :
    (post_execution "Done." initChatState).conversation_history.length
        = initChatState.conversation_history.length + 2 ∧
    ¬ ((post_execution "Done." initChatState).conversation_history.length
        = initChatState.conversation_history.length + 1) := by
  decide

/-- C8 amended: the conversation history is append-only — every handler
invocation extends it, never reordering, removing or replacing messages —
and each message-producing branch appends exactly one message of the
appropriate role (the empty-schema intake branch one system message, the
question-accepting intake branch one user message, load one system
message, query-build and failed execution one assistant message each; the
quit, load-command and successful-execution branches append nothing),
except `post_execution`, which always appends exactly two assistant
messages: the raw-results message, then the narration. -/
theorem history_append_only :
    (∀ (i : String) (s : ChatState),
      (pyStartswith (pyLower i) "/q" = true →
        (handle_user_input i s).conversation_history = s.conversation_history) ∧
      (pyStartswith (pyLower i) "/q" = false →
        pyStartswith (pyLower i) "/load" = true →
        (handle_user_input i s).conversation_history = s.conversation_history) ∧
      (pyStartswith (pyLower i) "/q" = false →
        pyStartswith (pyLower i) "/load" = false →
        s.table_schemas = "" →
        (handle_user_input i s).conversation_history
          = s.conversation_history ++ [⟨Role.system, loadFirstPrompt⟩]) ∧
      (pyStartswith (pyLower i) "/q" = false →
        pyStartswith (pyLower i) "/load" = false →
        s.table_schemas ≠ "" →
        (handle_user_input i s).conversation_history
          = s.conversation_history ++ [⟨Role.human, i⟩])) ∧
    (∀ (m : String) (s : ChatState),
      (load_data m s).conversation_history = s.conversation_history ++
        [⟨Role.system,
          "Table \x27" ++ pySplitextStem (pyBasename (s.data_load_event.file_path.getD ""))
            ++ "\x27 loaded with metadata:\n"
            ++ tableBlock (pySplitextStem (pyBasename (s.data_load_event.file_path.getD ""))) m⟩]) ∧
    (∀ (c : String) (s : ChatState),
      ∃ content, (build_query c s).conversation_history
        = s.conversation_history ++ [⟨Role.ai, content⟩]) ∧
    (∀ (N : Nat) (rows : Rows) (s : ChatState),
      (execute_query N (Except.ok rows) s).conversation_history
        = s.conversation_history) ∧
    (∀ (N : Nat) (e : String) (s : ChatState),
      ∃ content, (execute_query N (Except.error e) s).conversation_history
        = s.conversation_history ++ [⟨Role.ai, content⟩]) ∧
    (∀ (n : String) (s : ChatState),
      (post_execution n s).conversation_history = s.conversation_history ++
        [⟨Role.ai, "SQL results are: " ++ pyStrRows s.sql_event.sql_result⟩,
          ⟨Role.ai, n⟩]) ∧
    (∀ (N : Nat) (envs : List Env) (s : ChatState),
      ∃ t, (run N envs s).conversation_history = s.conversation_history ++ t) := by
  refine ⟨?_, ?_, ?_, ?_, ?_, ?_, run_history_extend⟩
  · intro i s
    refine ⟨?_, ?_, ?_, ?_⟩
    · intro hq
      simp [handle_user_input, hq]
    · intro hq hl
      cases hp : parseLoad i with
      | none => simp [handle_user_input, hq, hl, hp]
      | some v =>
        obtain ⟨fp, desc⟩ := v
        simp [handle_user_input, hq, hl, hp]
    · intro hq hl hts
      simp [handle_user_input, hq, hl, hts, ChatState.update_conversation_history]
    · intro hq hl hts
      simp [handle_user_input, hq, hl, hts, ChatState.update_conversation_history]
  · intro m s
    simp [load_data, ChatState.update_conversation_history]
  · intro c s
    cases h : pyStartswith c clarificationMarker with
    | true =>
      refine ⟨"Your question is ambiguous. Please provide additional details: "
        ++ pyStrip ((pySplitOnStr c clarificationMarker).getD 1 ""), ?_⟩
      simp [build_query, h, ChatState.update_conversation_history]
    | false =>
      refine ⟨pyStrip (pyReplace (pyReplace c "```sql" "") "```" ""), ?_⟩
      simp [build_query, h, ChatState.update_conversation_history]
  · intro N rows s
    simp [execute_query]
  · intro N e s
    simp only [execute_query, ChatState.update_conversation_history]
    split
    · exact ⟨giveUpMessage, by simp⟩
    · exact ⟨"The generated SQL query raised this error:\n" ++ e ++ "\n", by simp⟩
  · intro n s
    simp [post_execution, ChatState.update_conversation_history]

/-- C8 witness: the two message-producing intake branches at concrete
inputs — one system message when no data is loaded, one user message on a
loaded session. -/
theorem history_append_only_witness :
    (handle_user_input "total sales last month" initChatState).conversation_history
        = initChatState.conversation_history ++ [⟨Role.system, loadFirstPrompt⟩] ∧
    (handle_user_input "total sales last month" loadedState).conversation_history
        = loadedState.conversation_history
            ++ [⟨Role.human, "total sales last month"⟩] :=
  ⟨(history_append_only.1 "total sales last month" initChatState).2.2.1
      (by decide) (by decide) (by decide),
    (history_append_only.1 "total sales last month" loadedState).2.2.2
      (by decide) (by decide) (by decide)⟩

theorem handle_user_input_schemas_eq (i : String) (s : ChatState) :
    (handle_user_input i s).table_schemas = s.table_schemas := by
  cases hq : pyStartswith (pyLower i) "/q" with
  | true => simp [handle_user_input, hq]
  | false =>
    cases hl : pyStartswith (pyLower i) "/load" with
    | true =>
      cases hp : parseLoad i with
      | none => simp [handle_user_input, hq, hl, hp]
      | some v =>
        obtain ⟨fp, desc⟩ := v
        simp [handle_user_input, hq, hl, hp]
    | false =>
      by_cases hts : s.table_schemas = "" <;>
        simp [handle_user_input, hq, hl, hts, ChatState.update_conversation_history]

theorem build_query_schemas_eq (c : String) (s : ChatState) :
    (build_query c s).table_schemas = s.table_schemas := by
  cases h : pyStartswith c clarificationMarker <;>
    simp [build_query, h, ChatState.update_conversation_history]

theorem execute_query_schemas_eq (N : Nat) (r : Except String Rows) (s : ChatState) :
    (execute_query N r s).table_schemas = s.table_schemas := by
  match r with
  | Except.ok rows => simp [execute_query]
  | Except.error e =>
    simp only [execute_query, ChatState.update_conversation_history]
    split <;> simp

theorem post_execution_schemas_eq (n : String) (s : ChatState) :
    (post_execution n s).table_schemas = s.table_schemas := by
  simp [post_execution, ChatState.update_conversation_history]

theorem load_data_schemas_eq (m : String) (s : ChatState) :
    (load_data m s).table_schemas = s.table_schemas ++
      tableBlock (pySplitextStem (pyBasename (s.data_load_event.file_path.getD ""))) m := by
  simp [load_data, ChatState.update_conversation_history]

theorem step_schemas_extend (N : Nat) (env : Env) (s : ChatState) :
    ∃ t, (step N env s).table_schemas = s.table_schemas ++ t := by
  unfold step
  split
  · exact ⟨"", by rw [handle_user_input_schemas_eq, String.append_empty]⟩
  split
  · exact ⟨_, load_data_schemas_eq env.fileMeta s⟩
  split
  · exact ⟨"", by rw [build_query_schemas_eq, String.append_empty]⟩
  split
  · exact ⟨"", by rw [execute_query_schemas_eq, String.append_empty]⟩
  split
  · exact ⟨"", by rw [post_execution_schemas_eq, String.append_empty]⟩
  · exact ⟨"", by rw [String.append_empty]⟩

theorem run_schemas_extend (N : Nat) (envs : List Env) (s : ChatState) :
    ∃ t, (run N envs s).table_schemas = s.table_schemas ++ t := by
  induction envs generalizing s with
  | nil => exact ⟨"", by simp [run, String.append_empty]⟩
  | cons e es ih =>
    obtain ⟨t1, ht1⟩ := step_schemas_extend N e s
    obtain ⟨t2, ht2⟩ := ih (step N e s)
    refine ⟨t1 ++ t2, ?_⟩
    show (run N es (step N e s)).table_schemas = _
    rw [ht2, ht1, String.append_assoc]

/-- C4: after any sequence of successful loads, `table_schemas` equals
what it was before followed by the concatenation, in load order, of each
load's formatted table block (so from the session's initial empty string,
exactly that concatenation); and no handler ever truncates, rewrites or
removes any part of `table_schemas` — every handler's output extends the
input's value, `load_data` by exactly its block and every other handler
by nothing. -/
theorem table_schemas_append_only :
    (∀ (loads : List (String × String × String)) (s : ChatState),
      (runLoads loads s).table_schemas = s.table_schemas ++ blocksConcat loads) ∧
    (∀ (loads : List (String × String × String)),
      (runLoads loads initChatState).table_schemas = blocksConcat loads) ∧
    (∀ (i : String) (s : ChatState),
      (handle_user_input i s).table_schemas = s.table_schemas) ∧
    (∀ (m : String) (s : ChatState),
      (load_data m s).table_schemas = s.table_schemas ++
        tableBlock (pySplitextStem (pyBasename (s.data_load_event.file_path.getD ""))) m) ∧
    (∀ (c : String) (s : ChatState),
      (build_query c s).table_schemas = s.table_schemas) ∧
    (∀ (N : Nat) (r : Except String Rows) (s : ChatState),
      (execute_query N r s).table_schemas = s.table_schemas) ∧
    (∀ (n : String) (s : ChatState),
      (post_execution n s).table_schemas = s.table_schemas) ∧
    (∀ (N : Nat) (envs : List Env) (s : ChatState),
      ∃ t, (run N envs s).table_schemas = s.table_schemas ++ t) := by
  have hfold : ∀ (loads : List (String × String × String)) (s : ChatState),
      (runLoads loads s).table_schemas = s.table_schemas ++ blocksConcat loads := by
    intro loads
    induction loads with
    | nil => intro s; simp [runLoads, blocksConcat, String.append_empty]
    | cons l ls ih =>
      intro s
      show (runLoads ls (doLoad s l)).table_schemas = _
      rw [ih (doLoad s l)]
      show (load_data _ _).table_schemas ++ _ = _
      rw [load_data_schemas_eq]
      simp only [blocksConcat, Option.getD_some]
      rw [String.append_assoc]
  refine ⟨hfold, ?_, handle_user_input_schemas_eq, load_data_schemas_eq,
    build_query_schemas_eq, execute_query_schemas_eq, post_execution_schemas_eq,
    run_schemas_extend⟩
  intro loads
  rw [hfold loads initChatState]
  show "" ++ blocksConcat loads = _
  rw [String.empty_append]

theorem handle_user_input_next_mem (i : String) (s : ChatState) :
    (handle_user_input i s).next_step ∈ stageNames := by
  cases hq : pyStartswith (pyLower i) "/q" with
  | true => simp [handle_user_input, hq, stageNames]
  | false =>
    cases hl : pyStartswith (pyLower i) "/load" with
    | true =>
      cases hp : parseLoad i with
      | none => simp [handle_user_input, hq, hl, hp, stageNames]
      | some v =>
        obtain ⟨fp, desc⟩ := v
        simp [handle_user_input, hq, hl, hp, stageNames]
    | false =>
      by_cases hts : s.table_schemas = "" <;>
        simp [handle_user_input, hq, hl, hts, ChatState.update_conversation_history, stageNames]

theorem load_data_next_mem (m : String) (s : ChatState) :
    (load_data m s).next_step ∈ stageNames := by
  simp [load_data, ChatState.update_conversation_history, stageNames]

theorem build_query_next_mem (c : String) (s : ChatState) :
    (build_query c s).next_step ∈ stageNames := by
  cases h : pyStartswith c clarificationMarker <;>
    simp [build_query, h, ChatState.update_conversation_history, stageNames]

theorem execute_query_next_mem (N : Nat) (r : Except String Rows) (s : ChatState) :
    (execute_query N r s).next_step ∈ stageNames := by
  match r with
  | Except.ok rows => simp [execute_query, stageNames]
  | Except.error e =>
    simp only [execute_query, ChatState.update_conversation_history]
    split <;> simp [stageNames]

theorem post_execution_next_mem (n : String) (s : ChatState) :
    (post_execution n s).next_step ∈ stageNames := by
  simp [post_execution, ChatState.update_conversation_history, stageNames]

theorem step_next_mem (N : Nat) (env : Env) (s : ChatState)
    (h : s.next_step ∈ stageNames) : (step N env s).next_step ∈ stageNames := by
  unfold step
  split
  · exact handle_user_input_next_mem env.userInput s
  split
  · exact load_data_next_mem env.fileMeta s
  split
  · exact build_query_next_mem env.llmText s
  split
  · exact execute_query_next_mem N env.dbResult s
  split
  · exact post_execution_next_mem env.narration s
  · exact h

theorem run_next_mem (N : Nat) (envs : List Env) (s : ChatState)
    (h : s.next_step ∈ stageNames) : (run N envs s).next_step ∈ stageNames := by
  induction envs generalizing s with
  | nil => exact h
  | cons e es ih =>
    show (run N es (step N e s)).next_step ∈ stageNames
    exact ih (step N e s) (step_next_mem N e s h)

/-- C9: every handler leaves `next_step` inside the closed set of the five
stage names plus the terminal marker `END`, and along any session run from
the initial state the Router (`route_to_next_step`) only ever returns a
member of that set. -/
theorem next_step_closed_set :
    (∀ (i : String) (s : ChatState),
      (handle_user_input i s).next_step ∈ stageNames) ∧
    (∀ (m : String) (s : ChatState), (load_data m s).next_step ∈ stageNames) ∧
    (∀ (c : String) (s : ChatState), (build_query c s).next_step ∈ stageNames) ∧
    (∀ (N : Nat) (r : Except String Rows) (s : ChatState),
      (execute_query N r s).next_step ∈ stageNames) ∧
    (∀ (n : String) (s : ChatState), (post_execution n s).next_step ∈ stageNames) ∧
    (∀ (N : Nat) (envs : List Env),
      route_to_next_step (run N envs initChatState) ∈ stageNames) := by
  refine ⟨handle_user_input_next_mem, load_data_next_mem, build_query_next_mem,
    execute_query_next_mem, post_execution_next_mem, ?_⟩
  intro N envs
  exact run_next_mem N envs initChatState (by decide)

theorem handle_user_input_guard (i : String) (s : ChatState) :
    schemasGuard (handle_user_input i s) := by
  unfold schemasGuard
  cases hq : pyStartswith (pyLower i) "/q" with
  | true => intro hmem; simp [handle_user_input, hq] at hmem
  | false =>
    cases hl : pyStartswith (pyLower i) "/load" with
    | true =>
      cases hp : parseLoad i with
      | none => intro hmem; simp [handle_user_input, hq, hl, hp] at hmem
      | some v =>
        obtain ⟨fp, desc⟩ := v
        intro hmem; simp [handle_user_input, hq, hl, hp] at hmem
    | false =>
      by_cases hts : s.table_schemas = ""
      · intro hmem
        simp [handle_user_input, hq, hl, hts, ChatState.update_conversation_history] at hmem
      · intro _
        rw [handle_user_input_schemas_eq]
        exact hts

theorem step_guard (N : Nat) (env : Env) (s : ChatState)
    (h : schemasGuard s) : schemasGuard (step N env s) := by
  unfold step route_to_next_step
  split
  · exact handle_user_input_guard env.userInput s
  split
  · intro hmem
    have : (load_data env.fileMeta s).next_step = "handle_user_input" := by
      simp [load_data, ChatState.update_conversation_history]
    simp [this] at hmem
  split
  · next hd =>
    intro _
    rw [build_query_schemas_eq]
    exact h (Or.inl hd)
  split
  · next hd =>
    intro _
    rw [execute_query_schemas_eq]
    exact h (Or.inr (Or.inl hd))
  split
  · intro hmem
    have : (post_execution env.narration s).next_step = "handle_user_input" := by
      simp [post_execution, ChatState.update_conversation_history]
    simp [this] at hmem
  · exact h

theorem run_guard (N : Nat) (envs : List Env) (s : ChatState)
    (h : schemasGuard s) : schemasGuard (run N envs s) := by
  induction envs generalizing s with
  | nil => exact h
  | cons e es ih =>
    show schemasGuard (run N es (step N e s))
    exact ih (step N e s) (step_guard N e s h)

/-- C6: on a question asked while `table_schemas` is empty, intake appends
exactly the load-data-first system message, routes back to intake, leaves
`sql_event` (no new `SqlAttempt`) and everything else unchanged, and does
not append the input; consequently, along any session run from the
initial state, the query-build, execute and narration stages are only
ever scheduled with a non-empty `table_schemas`. -/
theorem empty_schema_guard :
    (∀ (i : String) (s : ChatState),
      pyStartswith (pyLower i) "/q" = false →
      pyStartswith (pyLower i) "/load" = false →
      s.table_schemas = "" →
      handle_user_input i s =
        { s with
          conversation_history := s.conversation_history ++
            [⟨Role.system, loadFirstPrompt⟩],
          next_step := "handle_user_input" }) ∧
    (∀ (N : Nat) (envs : List Env), schemasGuard (run N envs initChatState)) := by
  constructor
  · intro i s hq hl hts
    simp [handle_user_input, hq, hl, hts, ChatState.update_conversation_history]
  · intro N envs
    exact run_guard N envs initChatState (by decide)

/-- C6 witness: the concrete no-data question, and a concrete
load-then-question run reaching the query-build stage with a non-empty
schema context. -/
theorem empty_schema_guard_witness :
    handle_user_input "total sales last month" initChatState =
      { initChatState with
        conversation_history := initChatState.conversation_history ++
          [⟨Role.system, loadFirstPrompt⟩],
        next_step := "handle_user_input" } ∧
    (run 0 [demoEnv "/load sales.csv sales_meta.txt" "",
        demoEnv "" "columns: id, amount, date",
        demoEnv "total sales last month" ""] initChatState).table_schemas ≠ "" := by
  constructor
  · exact empty_schema_guard.1 "total sales last month" initChatState
      (by decide) (by decide) (by decide)
  · exact empty_schema_guard.2 0
      [demoEnv "/load sales.csv sales_meta.txt" "",
        demoEnv "" "columns: id, amount, date",
        demoEnv "total sales last month" ""]
      (Or.inl (by decide))

theorem step_at_build (N : Nat) (env : Env) (s : ChatState)
    (h : s.next_step = "build_query") :
    step N env s = build_query env.llmText s := by
  simp [step, route_to_next_step, h]

theorem step_at_execute (N : Nat) (env : Env) (s : ChatState)
    (h : s.next_step = "execute_query") :
    step N env s = execute_query N env.dbResult s := by
  simp [step, route_to_next_step, h]

theorem build_query_nonmarker_facts (c : String) (s : ChatState)
    (h : pyStartswith c clarificationMarker = false) :
    (build_query c s).next_step = "execute_query" ∧
    (build_query c s).sql_event.retry_count = s.sql_event.retry_count := by
  simp [build_query, h, ChatState.update_conversation_history]

theorem execute_fail_retry_succ (N : Nat) (e : String) (s : ChatState) :
    (execute_query N (Except.error e) s).sql_event.retry_count
      = s.sql_event.retry_count + 1 := by
  simp only [execute_query, ChatState.update_conversation_history]
  split <;> simp

theorem execute_fail_giveup (N : Nat) (e : String) (s : ChatState)
    (h : s.sql_event.retry_count + 1 > N) :
    (execute_query N (Except.error e) s).next_step = "handle_user_input" ∧
    (execute_query N (Except.error e) s).conversation_history
      = s.conversation_history ++ [⟨Role.ai, giveUpMessage⟩] := by
  simp only [execute_query, ChatState.update_conversation_history]
  split
  · simp
  · next hle => exact absurd h (by simpa using hle)

theorem execute_fail_rebuild (N : Nat) (e : String) (s : ChatState)
    (h : s.sql_event.retry_count + 1 ≤ N) :
    (execute_query N (Except.error e) s).next_step = "build_query" := by
  simp only [execute_query, ChatState.update_conversation_history]
  split
  · next hgt => exact absurd h (by simpa using hgt)
  · simp

theorem fail_cycle (N : Nat) (llm err : String) (s : ChatState)
    (hm : pyStartswith llm clarificationMarker = false)
    (h1 : s.next_step = "build_query") :
    step N (envFail llm err) (step N (envFail llm err) s)
      = execute_query N (Except.error err) (build_query llm s) := by
  rw [step_at_build N (envFail llm err) s h1]
  have hx : (envFail llm err).llmText = llm := rfl
  rw [hx]
  rw [step_at_execute N (envFail llm err) (build_query llm s)
    (build_query_nonmarker_facts llm s hm).1]
  rfl

theorem fail_loop_inv (N : Nat) (llm err : String)
    (hm : pyStartswith llm clarificationMarker = false) (s : ChatState)
    (h1 : s.next_step = "build_query") (h2 : s.sql_event.retry_count = 0) :
    ∀ k, k ≤ N →
      ((step N (envFail llm err))^[2 * k] s).next_step = "build_query" ∧
      ((step N (envFail llm err))^[2 * k] s).sql_event.retry_count = k := by
  intro k
  induction k with
  | zero => intro _; simpa using ⟨h1, h2⟩
  | succ k ih =>
    intro hk
    obtain ⟨hb, hr⟩ := ih (Nat.le_of_succ_le hk)
    have hiter : (step N (envFail llm err))^[2 * (k + 1)] s
        = step N (envFail llm err)
            (step N (envFail llm err) ((step N (envFail llm err))^[2 * k] s)) := by
      rw [show 2 * (k + 1) = 2 + 2 * k by ring, Function.iterate_add_apply]
      rfl
    rw [hiter, fail_cycle N llm err _ hm hb]
    have hbr := (build_query_nonmarker_facts llm ((step N (envFail llm err))^[2 * k] s) hm).2
    have hle : (build_query llm ((step N (envFail llm err))^[2 * k] s)).sql_event.retry_count + 1 ≤ N := by
      rw [hbr, hr]; omega
    refine ⟨execute_fail_rebuild N err _ hle, ?_⟩
    rw [execute_fail_retry_succ, hbr, hr]

/-- C1: each execution failure increments `retry_count`; the handler gives
up (give-up assistant message, route to intake) exactly when the
incremented count strictly exceeds the bound `N`, and otherwise routes
back to query-build; consequently, in a failing attempt loop starting
from a fresh attempt, the first `N` failed attempts all route back to
query-build and the `N+1`-st failure gives up — exactly `N + 1` execution
attempts per `SqlAttempt` (at `N = 0`: one attempt, then give-up). -/
theorem execute_retry_bound :
    (∀ (N : Nat) (e : String) (s : ChatState),
      (execute_query N (Except.error e) s).sql_event.retry_count
          = s.sql_event.retry_count + 1 ∧
      (s.sql_event.retry_count + 1 > N →
        (execute_query N (Except.error e) s).next_step = "handle_user_input" ∧
        (execute_query N (Except.error e) s).conversation_history
          = s.conversation_history ++ [⟨Role.ai, giveUpMessage⟩]) ∧
      (s.sql_event.retry_count + 1 ≤ N →
        (execute_query N (Except.error e) s).next_step = "build_query")) ∧
    (∀ (N : Nat) (llm err : String) (s : ChatState),
      pyStartswith llm clarificationMarker = false →
      s.next_step = "build_query" →
      s.sql_event.retry_count = 0 →
      (∀ k, k ≤ N →
        ((step N (envFail llm err))^[2 * k] s).next_step = "build_query" ∧
        ((step N (envFail llm err))^[2 * k] s).sql_event.retry_count = k) ∧
      ((step N (envFail llm err))^[2 * (N + 1)] s).next_step = "handle_user_input" ∧
      ((step N (envFail llm err))^[2 * (N + 1)] s).sql_event.retry_count = N + 1) := by
  constructor
  · intro N e s
    exact ⟨execute_fail_retry_succ N e s,
      fun h => execute_fail_giveup N e s h,
      fun h => execute_fail_rebuild N e s h⟩
  · intro N llm err s hm h1 h2
    refine ⟨fail_loop_inv N llm err hm s h1 h2, ?_⟩
    obtain ⟨hb, hr⟩ := fail_loop_inv N llm err hm s h1 h2 N (Nat.le_refl N)
    have hiter : (step N (envFail llm err))^[2 * (N + 1)] s
        = step N (envFail llm err)
            (step N (envFail llm err) ((step N (envFail llm err))^[2 * N] s)) := by
      rw [show 2 * (N + 1) = 2 + 2 * N by ring, Function.iterate_add_apply]
      rfl
    rw [hiter, fail_cycle N llm err _ hm hb]
    have hbr := (build_query_nonmarker_facts llm ((step N (envFail llm err))^[2 * N] s) hm).2
    have hgt : (build_query llm ((step N (envFail llm err))^[2 * N] s)).sql_event.retry_count + 1 > N := by
      rw [hbr, hr]; omega
    refine ⟨(execute_fail_giveup N err _ hgt).1, ?_⟩
    rw [execute_fail_retry_succ, hbr, hr]

/-- C1 witness: the `N = 0` boundary — one failing attempt, then
give-up — plus the per-failure give-up behaviour at the same input. -/
theorem execute_retry_bound_witness :
    (((step 0 (envFail "SELECT 1" "boom"))^[2 * (0 + 1)] bqState).next_step
        = "handle_user_input" ∧
      ((step 0 (envFail "SELECT 1" "boom"))^[2 * (0 + 1)] bqState).sql_event.retry_count
        = 0 + 1) ∧
    (execute_query 0 (Except.error "boom") bqState).next_step = "handle_user_input" := by
  constructor
  · exact (execute_retry_bound.2 0 "SELECT 1" "boom" bqState
      (by decide) (by decide) (by decide)).2
  · exact ((execute_retry_bound.1 0 "boom" bqState).2.1 (by decide)).1

end TableAgentGPT
